import Mathlib

/-!
# Verification of the voice-insight backend against its specification

Shallow embedding of the call-intelligence ingestion service
(`backend/app/crud.py`, `backend/app/api/routes/calls.py`,
`backend/app/api/routes/insights.py`, `backend/app/core/config.py`).

The relational store is modelled as an explicit `DB` value (lists of rows
plus an id counter); the blob store as an association list from file path to
byte contents; the job queue as a list of call ids.  Each route handler and
CRUD method becomes a pure function over these, returning `Except HTTPError`
where the Python raises `HTTPException`.  Timestamps (`datetime.utcnow()`)
are passed in explicitly as a `now : Nat` parameter.  Python `float` fields
(`duration_seconds`, `confidence`) are modelled as `ℚ`: the code only stores
and passes them through, never computes with them.

`app/models.py` is imported by the code but is not part of the sources given;
the definitions derived from it are marked `Modelled from the spec:` below.
-/

namespace VoiceInsight

/-- Modelled from the spec: the status enum `CallStatus` lives in the absent
`app/models.py`; its members are the five states of §4.1:
`UPLOADED, TRANSCRIBING, ANALYZING, COMPLETED, FAILED`. -/
inductive CallStatus where
  | uploaded
  | transcribing
  | analyzing
  | completed
  | failed
deriving DecidableEq, Repr

/-- Modelled from the spec: the `Call` row type of the absent `app/models.py`.
Fields follow §3 ("identifier, stored filename, original filename, file
path/reference, file size, status, error message (optional), duration in
seconds (optional), created-at/updated-at timestamps") and the keyword
arguments used by `CRUDCall.create` and `CRUDCall.update_status` in
`crud.py`.  Per §3 the optional fields default to null at creation. -/
structure Call where
  id : Nat
  filename : String
  original_filename : String
  file_path : String
  file_size : Nat
  status : CallStatus
  error_message : Option String
  duration_seconds : Option ℚ
  created_at : Nat
  updated_at : Nat
deriving DecidableEq, Repr

/-- Modelled from the spec: the `Transcript` row type of the absent
`app/models.py`; fields follow §3 and the keyword arguments of
`CRUDTranscript.create` in `crud.py` (`start_time`/`end_time` are `int`
there). -/
structure Transcript where
  call_id : Nat
  speaker : String
  text : String
  start_time : Int
  end_time : Int
  confidence : Option ℚ
deriving DecidableEq, Repr

/-- Modelled from the spec: insight categories are "an enum, open-ended set
of categories" (§3) defined in the absent `app/models.py`; modelled as an
opaque label.  The code only compares them for equality. -/
abbrev InsightType := String

/-- Modelled from the spec: the `Insight` row type of the absent
`app/models.py`; fields follow §3 and the keyword arguments of
`CRUDInsight.create` in `crud.py`.  `extra_data` is an opaque key-value
mapping. -/
structure Insight where
  call_id : Nat
  insight_type : InsightType
  content : String
  confidence : Option ℚ
  extra_data : List (String × String)
  created_at : Nat
deriving DecidableEq, Repr

/-- The relational store: the `call`, `transcript` and `insight` tables plus
the id sequence for `call`.  Row lists carry no meaningful order (queries
sort explicitly, as the SQL does). -/
structure DB where
  calls : List Call
  transcripts : List Transcript
  insights : List Insight
  nextId : Nat
deriving DecidableEq, Repr

/-- The empty store. -/
def DB.empty : DB := ⟨[], [], [], 0⟩

/-- The blob store (`./uploads` on disk): file path to raw bytes. -/
abbrev Blobs := List (String × List Nat)

/-! ## Settings (`backend/app/core/config.py`) -/

/-- `MAX_UPLOAD_SIZE: int = 100 * 1024 * 1024` from `config.py`. -/
def MAX_UPLOAD_SIZE : Nat := 100 * 1024 * 1024

/-- `ALLOWED_AUDIO_EXTENSIONS: set[str]` from `config.py`. -/
def ALLOWED_AUDIO_EXTENSIONS : List String := [".mp3", ".wav", ".m4a", ".ogg", ".flac"]

/-! ## Path helpers (`pathlib.Path(...).suffix` semantics) -/

/-- The last path component, as `pathlib` takes the name of a path. -/
def basename (s : String) : String :=
  String.mk (s.toList.foldl (fun acc c => if c = '/' then [] else acc ++ [c]) [])

/-- `pathlib.Path(s).suffix`: the substring of the name from its last dot,
provided that dot is neither the first nor the last character of the name;
otherwise the empty string. -/
def pathSuffix (s : String) : String :=
  let name := (basename s).toList
  match name.reverse.findIdx? (fun c => c == '.') with
  | none => ""
  | some j =>
    let i := name.length - 1 - j
    if 0 < i ∧ i < name.length - 1 then String.mk (name.drop i) else ""

/-- Python's `str.lower()` restricted to its ASCII behaviour (file extensions
here are ASCII). -/
def toLowerAscii (s : String) : String :=
  String.mk (s.toList.map Char.toLower)

/-! ## CRUD operations (`backend/app/crud.py`) -/

/-- `CRUDCall.create`: builds a `Call` with the given fields and
`status=CallStatus.UPLOADED`, adds it, commits.  The id and the timestamps
come from column defaults (modelled: the next sequence value and `now`);
the optional fields start null. -/
def CRUDCall.create (db : DB) (now : Nat) (filename original_filename file_path : String)
    (file_size : Nat) : DB × Call :=
  let call : Call :=
    { id := db.nextId
      filename := filename
      original_filename := original_filename
      file_path := file_path
      file_size := file_size
      status := CallStatus.uploaded
      error_message := none
      duration_seconds := none
      created_at := now
      updated_at := now }
  ({ db with calls := db.calls ++ [call], nextId := db.nextId + 1 }, call)

/-- `CRUDCall.get`: `session.get(Call, id)`. -/
def CRUDCall.get (db : DB) (id : Nat) : Option Call :=
  db.calls.find? (fun c => c.id == id)

/-- A call together with its eagerly loaded children. -/
structure CallWithDetails where
  call : Call
  transcripts : List Transcript
  insights : List Insight
deriving DecidableEq, Repr

/-- `CRUDCall.get_with_details`: `select(Call).where(Call.id == id)` with
`selectinload` of the `transcripts` and `insights` relationships (rows of the
child tables whose `call_id` matches). -/
def CRUDCall.get_with_details (db : DB) (id : Nat) : Option CallWithDetails :=
  match db.calls.find? (fun c => c.id == id) with
  | none => none
  | some c =>
    some { call := c
           transcripts := db.transcripts.filter (fun t => t.call_id == id)
           insights := db.insights.filter (fun i => i.call_id == id) }

/-- The `ORDER BY created_at DESC` relation of `CRUDCall.get_multi`. -/
def createdDesc (a b : Call) : Prop := b.created_at ≤ a.created_at

instance : DecidableRel createdDesc := fun a b => Nat.decLe b.created_at a.created_at

instance : IsTotal Call createdDesc :=
  ⟨fun a b => (Nat.le_total b.created_at a.created_at).symm.imp id id |>.symm⟩

instance : IsTrans Call createdDesc :=
  ⟨fun _ _ _ hab hbc => Nat.le_trans hbc hab⟩

/-- `CRUDCall.get_multi`: optional status filter, `ORDER BY created_at DESC`,
`OFFSET skip LIMIT limit`. -/
def CRUDCall.get_multi (db : DB) (skip limit : Nat) (status : Option CallStatus) :
    List Call :=
  let filtered : List Call :=
    match status with
    | some s => db.calls.filter (fun c => c.status == s)
    | none => db.calls
  ((filtered.insertionSort createdDesc).drop skip).take limit

/-- `CRUDCall.count`: `SELECT count(Call.id)` with the same optional status
filter, no offset or limit. -/
def CRUDCall.count (db : DB) (status : Option CallStatus) : Nat :=
  match status with
  | some s => (db.calls.filter (fun c => c.status == s)).length
  | none => db.calls.length

/-- `CRUDCall.update_status`: sets `status` and `updated_at`, sets
`error_message` only when the argument is not `None`, sets
`duration_seconds` only when the argument is not `None`, then commits once.
The source performs no check of the requested transition. -/
def CRUDCall.update_status (call : Call) (now : Nat) (status : CallStatus)
    (error_message : Option String) (duration_seconds : Option ℚ) : Call :=
  { call with
    status := status
    updated_at := now
    error_message :=
      match error_message with
      | some e => some e
      | none => call.error_message
    duration_seconds :=
      match duration_seconds with
      | some d => some d
      | none => call.duration_seconds }

/-- `CRUDCall.delete`: looks the call up by id; absent ids return `False`;
present ids delete the row and return `True`.  Modelled from the spec: the
cascade to `transcript` and `insight` rows comes from the relationship
declarations of the absent `app/models.py` ("foreign keys ... cascading on
delete", §6). -/
def CRUDCall.delete (db : DB) (id : Nat) : DB × Bool :=
  match db.calls.find? (fun c => c.id == id) with
  | none => (db, false)
  | some _ =>
    ({ db with
        calls := db.calls.filter (fun c => ¬ c.id == id)
        transcripts := db.transcripts.filter (fun t => ¬ t.call_id == id)
        insights := db.insights.filter (fun i => ¬ i.call_id == id) }, true)

/-- The `ORDER BY start_time` (ascending) relation of
`CRUDTranscript.get_by_call`. -/
def startTimeAsc (a b : Transcript) : Prop := a.start_time ≤ b.start_time

instance : DecidableRel startTimeAsc := fun a b => Int.decLe a.start_time b.start_time

instance : IsTotal Transcript startTimeAsc := ⟨fun a b => Int.le_total a.start_time b.start_time⟩

instance : IsTrans Transcript startTimeAsc :=
  ⟨fun _ _ _ hab hbc => Int.le_trans hab hbc⟩

/-- `CRUDTranscript.get_by_call`: rows with the given `call_id`,
`ORDER BY start_time` ascending. -/
def CRUDTranscript.get_by_call (db : DB) (call_id : Nat) : List Transcript :=
  (db.transcripts.filter (fun t => t.call_id == call_id)).insertionSort startTimeAsc

/-- The `ORDER BY created_at` (ascending) relation of
`CRUDInsight.get_by_call`. -/
def insightCreatedAsc (a b : Insight) : Prop := a.created_at ≤ b.created_at

instance : DecidableRel insightCreatedAsc := fun a b => Nat.decLe a.created_at b.created_at

instance : IsTotal Insight insightCreatedAsc := ⟨fun a b => Nat.le_total a.created_at b.created_at⟩

instance : IsTrans Insight insightCreatedAsc :=
  ⟨fun _ _ _ hab hbc => Nat.le_trans hab hbc⟩

/-- `CRUDInsight.get_by_call`: rows with the given `call_id`, optionally
filtered by type, `ORDER BY created_at` ascending. -/
def CRUDInsight.get_by_call (db : DB) (call_id : Nat) (insight_type : Option InsightType) :
    List Insight :=
  let q := db.insights.filter (fun i => i.call_id == call_id)
  let q : List Insight :=
    match insight_type with
    | some ty => q.filter (fun i => i.insight_type == ty)
    | none => q
  q.insertionSort insightCreatedAsc

/-! ## The spec's transition contract (§4.1) -/

/-- Modelled from the spec: the valid-transition set of §4.1/§8,
`{UPLOADED→TRANSCRIBING, TRANSCRIBING→ANALYZING, TRANSCRIBING→FAILED,
ANALYZING→COMPLETED, ANALYZING→FAILED, FAILED→TRANSCRIBING}`.  This is the
spec-side definition used to compare `CRUDCall.update_status` against the
contract; it has no counterpart in the given sources. -/
def validTransition : CallStatus → CallStatus → Bool
  | CallStatus.uploaded, CallStatus.transcribing => true
  | CallStatus.transcribing, CallStatus.analyzing => true
  | CallStatus.transcribing, CallStatus.failed => true
  | CallStatus.analyzing, CallStatus.completed => true
  | CallStatus.analyzing, CallStatus.failed => true
  | CallStatus.failed, CallStatus.transcribing => true
  | _, _ => false

/-- Modelled from the spec: the `InvalidTransition` error of §4.1/§7; no such
error exists anywhere in the given sources. -/
inductive InvalidTransition where
  | mk
deriving DecidableEq, Repr

/-- Modelled from the spec: the contract
`transition(call, target_status, error=None, duration=None)` of §4.1 — fails
with `InvalidTransition` when the target is not reachable from the current
status, otherwise persists status, timestamp and the optional error/duration
in one write.  Spec-side definition, for comparison with
`CRUDCall.update_status`. -/
def transition (call : Call) (now : Nat) (target : CallStatus)
    (error_message : Option String) (duration_seconds : Option ℚ) :
    Except InvalidTransition Call :=
  if validTransition call.status target then
    Except.ok (CRUDCall.update_status call now target error_message duration_seconds)
  else
    Except.error InvalidTransition.mk

/-! ## Route handlers (`backend/app/api/routes/calls.py`) -/

/-- A `fastapi.HTTPException` as observed by the caller. -/
structure HTTPError where
  status_code : Nat
  detail : String
deriving DecidableEq, Repr

/-- The multipart file of `POST /calls/`: `file.filename` (optional in
FastAPI) and the uploaded bytes. -/
structure UploadFile where
  filename : Option String
  contents : List Nat
deriving DecidableEq, Repr

/-- The success body of `POST /calls/`. -/
structure UploadResponse where
  call_id : Nat
  filename : String
  status : CallStatus
  message : String
deriving DecidableEq, Repr

/-- The state and body produced by a successful `POST /calls/`. -/
structure UploadResult where
  db : DB
  blobs : Blobs
  queue : List Nat
  response : UploadResponse
deriving DecidableEq, Repr

/-- `upload_call` (`POST /calls/`).  Control flow of the source:
1. `file_ext = Path(file.filename or "").suffix.lower()`; extensions outside
   `ALLOWED_AUDIO_EXTENSIONS` are rejected with a 415 before any state change.
2. Inside a `try` block the bytes are read and, when
   `file_size > MAX_UPLOAD_SIZE`, an `HTTPException(413)` is raised — but the
   block's `except Exception` clause catches it (an `HTTPException` is an
   `Exception`) and re-raises a 500 ("Failed to save file"), so the caller
   observes a 500, not a 413; no blob has been written at that point.
3. Otherwise the bytes are written to `UPLOAD_PATH / unique_filename` and a
   `Call` row is created via `CRUDCall.create`.
4. The job enqueue is a `TODO` comment in the source: the queue is returned
   unchanged.
5. The response carries the new id, the original filename, the status and a
   fixed message.
An `Except.error` models an aborted request: the caller's state (`db`,
`blobs`, `queue`) is unchanged, no row and no blob having been written. -/
def upload_call (db : DB) (blobs : Blobs) (queue : List Nat) (now : Nat)
    (uuid : String) (file : UploadFile) : Except HTTPError UploadResult :=
  let file_ext := toLowerAscii (pathSuffix (file.filename.getD ""))
  if ¬ ALLOWED_AUDIO_EXTENSIONS.contains file_ext then
    Except.error ⟨415, "Invalid file type uploaded."⟩
  else
    let unique_filename := uuid ++ file_ext
    let file_path := "uploads/" ++ unique_filename
    let contents := file.contents
    let file_size := contents.length
    if file_size > MAX_UPLOAD_SIZE then
      Except.error ⟨500, "Failed to save file."⟩
    else
      let blobs' := blobs ++ [(file_path, contents)]
      let original : String :=
        match file.filename with
        | some n => n
        | none => "None"
      let created := CRUDCall.create db now unique_filename original file_path file_size
      Except.ok
        { db := created.1
          blobs := blobs'
          queue := queue
          response :=
            { call_id := created.2.id
              filename := created.2.original_filename
              status := created.2.status
              message := "File uploaded successfully. Processing will start shortly." } }

/-- The body of `GET /calls/`. -/
structure ListCallsResponse where
  calls : List Call
  total : Nat
  skip : Nat
  limit : Nat
deriving DecidableEq, Repr

/-- `list_calls` (`GET /calls/`): page via `CRUDCall.get_multi`, total via
`CRUDCall.count`.  FastAPI enforces `skip ≥ 0`, `1 ≤ limit ≤ 100` before the
handler runs. -/
def list_calls (db : DB) (skip limit : Nat) (status : Option CallStatus) :
    ListCallsResponse :=
  { calls := CRUDCall.get_multi db skip limit status
    total := CRUDCall.count db status
    skip := skip
    limit := limit }

/-- `get_call` (`GET /calls/{call_id}`): the call with its transcripts and
insights, or a 404. -/
def get_call (db : DB) (call_id : Nat) : Except HTTPError CallWithDetails :=
  match CRUDCall.get_with_details db call_id with
  | none => Except.error ⟨404, "Call not found"⟩
  | some d => Except.ok d

/-- The body of `GET /calls/{call_id}/status`. -/
structure StatusResponse where
  call_id : Nat
  status : CallStatus
  error_message : Option String
deriving DecidableEq, Repr

/-- `get_call_status` (`GET /calls/{call_id}/status`): lightweight poll, or a
404. -/
def get_call_status (db : DB) (call_id : Nat) : Except HTTPError StatusResponse :=
  match CRUDCall.get db call_id with
  | none => Except.error ⟨404, "Call not found"⟩
  | some c => Except.ok ⟨c.id, c.status, c.error_message⟩

/-- The state and body produced by a successful `DELETE /calls/{call_id}`. -/
structure DeleteResult where
  db : DB
  blobs : Blobs
  message : String
  call_id : Nat
deriving DecidableEq, Repr

/-- Removing the audio file in `delete_call`: `os.remove` runs only when
`os.path.exists(call.file_path)`; an `OSError` from it is swallowed
(`except OSError: pass`).  `removeFails` is the oracle for that failure: when
it is true the blob stays, and the handler proceeds regardless. -/
def removeBlob (blobs : Blobs) (path : String) (removeFails : Bool) : Blobs :=
  if (blobs.find? (fun b => b.1 == path)).isSome then
    if removeFails then blobs else blobs.filter (fun b => ¬ b.1 == path)
  else
    blobs

/-- `delete_call` (`DELETE /calls/{call_id}`): 404 when the id is absent;
otherwise best-effort blob removal (never raising) followed by
`CRUDCall.delete`, which cascades to the call's transcripts and insights. -/
def delete_call (db : DB) (blobs : Blobs) (removeFails : Bool) (call_id : Nat) :
    Except HTTPError DeleteResult :=
  match CRUDCall.get db call_id with
  | none => Except.error ⟨404, "Call not found"⟩
  | some c =>
    let blobs' := removeBlob blobs c.file_path removeFails
    let deleted := CRUDCall.delete db call_id
    Except.ok
      { db := deleted.1
        blobs := blobs'
        message := "Call deleted successfully"
        call_id := call_id }

/-! ## Reachable call records (for the invariant claims) -/

/-- One invocation of `CRUDCall.update_status` in a call's history. -/
structure StatusUpdate where
  now : Nat
  status : CallStatus
  error_message : Option String
  duration_seconds : Option ℚ
deriving DecidableEq, Repr

/-- The record obtained by applying a sequence of `CRUDCall.update_status`
invocations to a call. -/
def applyUpdates (c : Call) (us : List StatusUpdate) : Call :=
  us.foldl
    (fun acc u => CRUDCall.update_status acc u.now u.status u.error_message u.duration_seconds)
    c

/-! ## Sample data for concrete evaluations -/

/-- A sample call record, as the upload path creates it. -/
def sampleCall : Call :=
  (CRUDCall.create DB.empty 0 "u.wav" "a.wav" "uploads/u.wav" 2097152).2

/-- A sample store holding `sampleCall` with one transcript and one insight. -/
def sampleDB : DB :=
  { calls := [sampleCall]
    transcripts := [⟨0, "agent", "hello", 0, 2, none⟩]
    insights := [⟨0, "summary", "greeting call", none, [], 5⟩]
    nextId := 1 }

/-- A small, valid `.wav` upload. -/
def wavUpload : UploadFile := ⟨some "a.wav", [1, 2, 3]⟩

/-! ## Helper lemmas -/

/-- `error_message` after a sequence of updates is null exactly when it was
null before and no update in the sequence supplied one. -/
theorem applyUpdates_error_message_none (us : List StatusUpdate) (c : Call) :
    (applyUpdates c us).error_message = none ↔
      c.error_message = none ∧ ∀ u ∈ us, u.error_message = none := by
  induction us generalizing c with
  | nil => simp [applyUpdates]
  | cons u us ih =>
    have step : applyUpdates c (u :: us) =
        applyUpdates
          (CRUDCall.update_status c u.now u.status u.error_message u.duration_seconds) us := rfl
    rw [step, ih]
    cases hu : u.error_message with
    | none =>
      simp [CRUDCall.update_status, hu, and_assoc]
    | some e =>
      simp [CRUDCall.update_status, hu]

/-! ## Claim theorems -/

/-- C1 (counterexample): the requested transition UPLOADED→COMPLETED is not
in the valid set — the spec's `transition` contract rejects it with
`InvalidTransition` — yet `CRUDCall.update_status` does not fail on it: it
succeeds and persists the target status.  The source performs no transition
check at all, so the claim that every invalid transition fails is false. -/
theorem update_status_accepts_invalid_transition :
    transition sampleCall 7 CallStatus.completed none none =
      Except.error InvalidTransition.mk ∧
    CRUDCall.update_status sampleCall 7 CallStatus.completed none none =
      { sampleCall with status := CallStatus.completed, updated_at := 7 } :=
  ⟨rfl, rfl⟩

/-- C1 (amended): `CRUDCall.update_status` performs no transition-validity
check: for every requested target status — valid or not per the spec's
graph — it succeeds, persisting the target status, the updated timestamp,
and the optional error/duration (each only when supplied) in one write. -/
theorem update_status_persists_unconditionally (c : Call) (now : Nat) (t : CallStatus)
    (e : Option String) (d : Option ℚ) :
    (CRUDCall.update_status c now t e d).status = t ∧
    (CRUDCall.update_status c now t e d).updated_at = now ∧
    (CRUDCall.update_status c now t e d).error_message =
      (match e with
       | some m => some m
       | none => c.error_message) ∧
    (CRUDCall.update_status c now t e d).duration_seconds =
      (match d with
       | some x => some x
       | none => c.duration_seconds) :=
  ⟨rfl, rfl, rfl, rfl⟩

/-- C2 (counterexample): two records reachable by `CRUDCall.create` followed
by `CRUDCall.update_status` calls falsify the claimed iff in both
directions: a call moved to FAILED with no error supplied has
`status = FAILED` with `error_message = null`, and a failed call retried to
TRANSCRIBING keeps its non-null `error_message` with a non-FAILED status. -/
theorem status_error_iff_fails :
    ¬ ((applyUpdates sampleCall [⟨1, CallStatus.failed, none, none⟩]).status =
          CallStatus.failed ↔
        (applyUpdates sampleCall [⟨1, CallStatus.failed, none, none⟩]).error_message ≠
          none) ∧
    ¬ ((applyUpdates sampleCall
            [⟨1, CallStatus.failed, some "transcription timeout", none⟩,
             ⟨2, CallStatus.transcribing, none, none⟩]).status =
          CallStatus.failed ↔
        (applyUpdates sampleCall
            [⟨1, CallStatus.failed, some "transcription timeout", none⟩,
             ⟨2, CallStatus.transcribing, none, none⟩]).error_message ≠
          none) := by
  decide

/-- C2 (amended): for every record reachable by `CRUDCall.create` followed
by any sequence of `CRUDCall.update_status` calls, `error_message` is
non-null iff some call in the sequence supplied a non-null `error_message`
(creation leaves it null, a supplied message is never cleared, and the
status bears no iff-relation to it). -/
theorem reachable_error_message_iff_supplied (db : DB) (now : Nat)
    (fn ofn fp : String) (sz : Nat) (us : List StatusUpdate) :
    (applyUpdates (CRUDCall.create db now fn ofn fp sz).2 us).error_message ≠ none ↔
      ∃ u ∈ us, u.error_message ≠ none := by
  rw [Ne, applyUpdates_error_message_none]
  simp [CRUDCall.create]

/-- Evaluation of `upload_call` when both validation checks pass: the blob
is written, the row is inserted with status UPLOADED, the queue is left
unchanged, and the response is assembled from the new row. -/
theorem upload_call_ok (db : DB) (blobs : Blobs) (queue : List Nat) (now : Nat)
    (uuid : String) (file : UploadFile)
    (hext : ALLOWED_AUDIO_EXTENSIONS.contains
        (toLowerAscii (pathSuffix (file.filename.getD ""))) = true)
    (hno : ¬ file.contents.length > MAX_UPLOAD_SIZE) :
    upload_call db blobs queue now uuid file =
      Except.ok
        { db :=
            { db with
              calls := db.calls ++
                [{ id := db.nextId
                   filename := uuid ++ toLowerAscii (pathSuffix (file.filename.getD ""))
                   original_filename :=
                     match file.filename with
                     | some n => n
                     | none => "None"
                   file_path :=
                     "uploads/" ++ (uuid ++ toLowerAscii (pathSuffix (file.filename.getD "")))
                   file_size := file.contents.length
                   status := CallStatus.uploaded
                   error_message := none
                   duration_seconds := none
                   created_at := now
                   updated_at := now }]
              nextId := db.nextId + 1 }
          blobs := blobs ++
            [("uploads/" ++ (uuid ++ toLowerAscii (pathSuffix (file.filename.getD ""))),
              file.contents)]
          queue := queue
          response :=
            { call_id := db.nextId
              filename :=
                match file.filename with
                | some n => n
                | none => "None"
              status := CallStatus.uploaded
              message := "File uploaded successfully. Processing will start shortly." } } := by
  have hmem : toLowerAscii (pathSuffix (file.filename.getD "")) ∈ ALLOWED_AUDIO_EXTENSIONS := by
    simpa using hext
  simp [upload_call, hmem, hno, CRUDCall.create]

/-- C3 (counterexample): a successful upload of a valid `.wav` file creates
call id 0 but leaves the job queue empty — no processing job is enqueued for
the new call (the enqueue is a `TODO` comment in the source). -/
theorem upload_enqueues_nothing :
    (upload_call DB.empty [] [] 0 "u" wavUpload).map
        (fun r => (r.response.call_id, r.queue)) = Except.ok (0, []) := rfl

/-- C3 (amended): on every successful multipart upload the handler creates a
Call record with status UPLOADED and returns a response containing call_id,
filename, status and message — but it enqueues nothing: the job queue is
returned unchanged, the enqueue being an unimplemented `TODO` in the
source. -/
theorem upload_success_no_enqueue (db : DB) (blobs : Blobs) (queue : List Nat)
    (now : Nat) (uuid : String) (file : UploadFile)
    (hext : ALLOWED_AUDIO_EXTENSIONS.contains
        (toLowerAscii (pathSuffix (file.filename.getD ""))) = true)
    (hsize : file.contents.length ≤ MAX_UPLOAD_SIZE) :
    ∃ r c, upload_call db blobs queue now uuid file = Except.ok r ∧
      r.db.calls = db.calls ++ [c] ∧
      c.status = CallStatus.uploaded ∧
      c.id = db.nextId ∧
      r.response =
        { call_id := c.id
          filename := c.original_filename
          status := c.status
          message := "File uploaded successfully. Processing will start shortly." } ∧
      r.queue = queue :=
  ⟨_, _, upload_call_ok db blobs queue now uuid file hext (Nat.not_lt.mpr hsize),
    rfl, rfl, rfl, rfl, rfl⟩

/-- Witness for C3 (amended) at a concrete `.wav` upload into the empty
store. -/
theorem upload_success_no_enqueue_witness :
    (ALLOWED_AUDIO_EXTENSIONS.contains
        (toLowerAscii (pathSuffix (wavUpload.filename.getD ""))) = true) ∧
    wavUpload.contents.length ≤ MAX_UPLOAD_SIZE ∧
    (∃ r c, upload_call DB.empty [] [] 0 "u" wavUpload = Except.ok r ∧
      r.db.calls = DB.empty.calls ++ [c] ∧
      c.status = CallStatus.uploaded ∧
      c.id = DB.empty.nextId ∧
      r.response =
        { call_id := c.id
          filename := c.original_filename
          status := c.status
          message := "File uploaded successfully. Processing will start shortly." } ∧
      r.queue = []) :=
  ⟨by decide, by decide,
    upload_success_no_enqueue DB.empty [] [] 0 "u" wavUpload (by decide) (by decide)⟩

/-- C4: the type check rejects a `.pdf` with a 415 before any state change,
as claimed; the size check, however, does not surface a 413: the
`HTTPException(413)` raised inside the `try` block is caught by the
handler's own `except Exception` clause and re-raised as a 500, so an
oversized upload is answered with a 500.  In both cases the request aborts
before the blob write and the row insert, so no state changes. -/
theorem upload_validation_status_codes :
    upload_call DB.empty [] [] 0 "u" ⟨some "doc.pdf", [1, 2]⟩ =
      Except.error ⟨415, "Invalid file type uploaded."⟩ ∧
    upload_call DB.empty [] [] 0 "u"
        ⟨some "big.wav", List.replicate (MAX_UPLOAD_SIZE + 1) 0⟩ =
      Except.error ⟨500, "Failed to save file."⟩ := by
  constructor
  · rfl
  · have hmem : toLowerAscii (pathSuffix "big.wav") ∈ ALLOWED_AUDIO_EXTENSIONS := by decide
    have hlen : (List.replicate (MAX_UPLOAD_SIZE + 1) (0 : Nat)).length > MAX_UPLOAD_SIZE := by
      simp
    simp [upload_call, hmem, hlen]

/-- C9 (counterexample): an upload with a valid `.wav` extension and an
empty body succeeds and creates a Call record with `file_size = 0` — the
upload path has no minimum-size check. -/
theorem empty_upload_creates_zero_size_call :
    (upload_call DB.empty [] [] 0 "u" ⟨some "empty.wav", []⟩).map
        (fun r => r.db.calls.map (fun c => c.file_size)) = Except.ok [0] := rfl

/-- C9 (amended): every Call record created through the upload path has
`file_size` equal to the byte length of the uploaded body — which may be
zero, empty bodies being accepted. -/
theorem upload_file_size_eq_byte_length (db : DB) (blobs : Blobs) (queue : List Nat)
    (now : Nat) (uuid : String) (file : UploadFile)
    (hext : ALLOWED_AUDIO_EXTENSIONS.contains
        (toLowerAscii (pathSuffix (file.filename.getD ""))) = true)
    (hsize : file.contents.length ≤ MAX_UPLOAD_SIZE) :
    ∃ r c, upload_call db blobs queue now uuid file = Except.ok r ∧
      r.db.calls = db.calls ++ [c] ∧
      c.file_size = file.contents.length :=
  ⟨_, _, upload_call_ok db blobs queue now uuid file hext (Nat.not_lt.mpr hsize),
    rfl, rfl⟩

/-- Witness for C9 (amended) at a concrete empty `.wav` upload. -/
theorem upload_file_size_eq_byte_length_witness :
    (ALLOWED_AUDIO_EXTENSIONS.contains
        (toLowerAscii (pathSuffix ((some "empty.wav" : Option String).getD ""))) = true) ∧
    (([] : List Nat).length ≤ MAX_UPLOAD_SIZE) ∧
    (∃ r c, upload_call DB.empty [] [] 0 "u" ⟨some "empty.wav", []⟩ = Except.ok r ∧
      r.db.calls = DB.empty.calls ++ [c] ∧
      c.file_size = (⟨some "empty.wav", []⟩ : UploadFile).contents.length) :=
  ⟨by decide, by decide,
    upload_file_size_eq_byte_length DB.empty [] [] 0 "u" ⟨some "empty.wav", []⟩
      (by decide) (by decide)⟩

/-- C5: deleting an existing call id succeeds and removes the Call row
together with every Transcript and Insight row of that call; the blob
removal is attempted first and is best-effort — the delete succeeds for
every value of the blob-removal-failure oracle and whether or not the blob
is present. -/
theorem delete_call_cascades (db : DB) (blobs : Blobs) (removeFails : Bool) (id : Nat)
    (h : (CRUDCall.get db id).isSome = true) :
    ∃ r, delete_call db blobs removeFails id = Except.ok r ∧
      (∀ c ∈ r.db.calls, c.id ≠ id) ∧
      (∀ t ∈ r.db.transcripts, t.call_id ≠ id) ∧
      (∀ i ∈ r.db.insights, i.call_id ≠ id) := by
  obtain ⟨c, hc⟩ := Option.isSome_iff_exists.mp h
  have hfind : db.calls.find? (fun x => x.id == id) = some c := hc
  refine
    ⟨{ db :=
         { db with
           calls := db.calls.filter (fun c => ¬ c.id == id)
           transcripts := db.transcripts.filter (fun t => ¬ t.call_id == id)
           insights := db.insights.filter (fun i => ¬ i.call_id == id) }
       blobs := removeBlob blobs c.file_path removeFails
       message := "Call deleted successfully"
       call_id := id }, ?_, ?_, ?_, ?_⟩
  · simp [delete_call, CRUDCall.get, CRUDCall.delete, hfind]
  · intro x hx
    simpa using (List.mem_filter.mp hx).2
  · intro x hx
    simpa using (List.mem_filter.mp hx).2
  · intro x hx
    simpa using (List.mem_filter.mp hx).2

/-- Witness for C5: deleting call 0 from the sample store, with the blob
present and the removal failing, still succeeds and empties the call's
rows. -/
theorem delete_call_cascades_witness :
    (CRUDCall.get sampleDB 0).isSome = true ∧
    (∃ r, delete_call sampleDB [("uploads/u.wav", [1, 2])] true 0 = Except.ok r ∧
      (∀ c ∈ r.db.calls, c.id ≠ 0) ∧
      (∀ t ∈ r.db.transcripts, t.call_id ≠ 0) ∧
      (∀ i ∈ r.db.insights, i.call_id ≠ 0)) :=
  ⟨rfl, delete_call_cascades sampleDB [("uploads/u.wav", [1, 2])] true 0 rfl⟩

/-- C6: for every stored set of records, call listings are sorted
newest-first by creation time, a call's transcripts are sorted by start time
ascending, and a call's insights are sorted by creation time ascending. -/
theorem read_ordering (db : DB) (skip limit : Nat) (status : Option CallStatus)
    (call_id : Nat) (ty : Option InsightType) :
    List.Sorted createdDesc (CRUDCall.get_multi db skip limit status) ∧
    List.Sorted startTimeAsc (CRUDTranscript.get_by_call db call_id) ∧
    List.Sorted insightCreatedAsc (CRUDInsight.get_by_call db call_id ty) := by
  refine ⟨?_, ?_, ?_⟩
  · exact List.Pairwise.sublist
      ((List.take_sublist _ _).trans (List.drop_sublist _ _))
      (List.sorted_insertionSort createdDesc _)
  · exact List.sorted_insertionSort startTimeAsc _
  · exact List.sorted_insertionSort insightCreatedAsc _

/-- C7: with a status filter, `GET /calls/` returns only calls of that
status, and the reported total is the number of all stored calls matching
the filter, for every skip and every limit within the declared bounds. -/
theorem list_calls_filter_and_total (db : DB) (skip limit : Nat) (s : CallStatus)
    (h1 : 1 ≤ limit) (h2 : limit ≤ 100) :
    (∀ c ∈ (list_calls db skip limit (some s)).calls, c.status = s) ∧
    (list_calls db skip limit (some s)).total =
      (db.calls.filter (fun c => c.status == s)).length := by
  constructor
  · intro c hc
    have h3 : c ∈ (db.calls.filter (fun c => c.status == s)).insertionSort createdDesc :=
      List.drop_subset _ _ (List.take_subset _ _ hc)
    have h4 : c ∈ db.calls.filter (fun c => c.status == s) :=
      (List.mem_insertionSort createdDesc).mp h3
    simpa using (List.mem_filter.mp h4).2
  · rfl

/-- Witness for C7 at the sample store with the default pagination. -/
theorem list_calls_filter_and_total_witness :
    (1 ≤ 20 ∧ 20 ≤ 100) ∧
    ((∀ c ∈ (list_calls sampleDB 0 20 (some CallStatus.uploaded)).calls,
        c.status = CallStatus.uploaded) ∧
      (list_calls sampleDB 0 20 (some CallStatus.uploaded)).total =
        (sampleDB.calls.filter (fun c => c.status == CallStatus.uploaded)).length) :=
  ⟨⟨by decide, by decide⟩,
    list_calls_filter_and_total sampleDB 0 20 CallStatus.uploaded (by decide) (by decide)⟩

/-- C8: for every id absent from the store, `GET /calls/{id}` and
`GET /calls/{id}/status` both answer 404; for every present id both
succeed, `GET /calls/{id}` returning the call with its transcripts and
insights. -/
theorem get_call_404_or_details (db : DB) (id : Nat) :
    (CRUDCall.get db id = none →
      get_call db id = Except.error ⟨404, "Call not found"⟩ ∧
      get_call_status db id = Except.error ⟨404, "Call not found"⟩) ∧
    (∀ c, CRUDCall.get db id = some c →
      get_call db id = Except.ok
        ⟨c, db.transcripts.filter (fun t => t.call_id == id),
            db.insights.filter (fun i => i.call_id == id)⟩ ∧
      get_call_status db id = Except.ok ⟨c.id, c.status, c.error_message⟩) := by
  constructor
  · intro h
    exact
      ⟨by simp [get_call, CRUDCall.get_with_details,
          show db.calls.find? (fun c => c.id == id) = none from h],
        by simp [get_call_status, h]⟩
  · intro c h
    exact
      ⟨by simp [get_call, CRUDCall.get_with_details,
          show db.calls.find? (fun c => c.id == id) = some c from h],
        by simp [get_call_status, h]⟩

/-- Witness for C8: id 5 is absent from the sample store and answers 404 on
both endpoints; id 0 is present and its status endpoint succeeds. -/
theorem get_call_404_or_details_witness :
    (get_call sampleDB 5 = Except.error ⟨404, "Call not found"⟩ ∧
      get_call_status sampleDB 5 = Except.error ⟨404, "Call not found"⟩) ∧
    get_call_status sampleDB 0 = Except.ok ⟨0, CallStatus.uploaded, none⟩ :=
  ⟨(get_call_404_or_details sampleDB 5).1 rfl,
    ((get_call_404_or_details sampleDB 0).2 sampleCall rfl).2⟩

/-- C10 (frame): `CRUDCall.update_status` called with no error message and
no duration changes exactly the status and the updated timestamp; every
other field — in particular the previously stored `error_message` and
`duration_seconds` — is retained, and neither is ever cleared. -/
theorem update_status_frame (c : Call) (now : Nat) (t : CallStatus) :
    CRUDCall.update_status c now t none none =
      { c with status := t, updated_at := now } := rfl

end VoiceInsight
